import Mathlib

/-!
Verification of the w3af crawl plugins `urllist_txt` and `ria_enumerator`
and of the console `kbMenu`, as a shallow embedding in Lean 4.

External collaborators (URL resolution via `base_url.url_join`, XML parsing
via `xml.dom.minidom.parseString`, the HTTP transport and the 404 filter)
are passed in as function parameters, following the interfaces of the
source; everything else is translated from the source files.

Python string primitives (`str.strip`, `str.startswith`, `split`, the `in`
substring test) are modelled by structural functions over `List Char` so
that every definition evaluates inside the kernel.
-/

namespace W3af

/-- Characters stripped by Python `str.strip()` (the `string.whitespace`
set: space, tab, newline, carriage return, vertical tab, form feed). -/
def python_ws (c : Char) : Bool :=
  c = ' ' || c = '\t' || c = '\n' || c = '\r' || c = '\x0b' || c = '\x0c'

/-- Python `line.strip()`: drop whitespace from both ends. -/
def py_strip (l : List Char) : List Char :=
  ((l.dropWhile python_ws).reverse.dropWhile python_ws).reverse

/-- Python `body.split(nl)` for the single newline character: split into the
list of newline-free chunks, keeping empty chunks (so the empty body gives
one empty line, as in Python). -/
def split_lines : List Char → List (List Char)
  | [] => [[]]
  | c :: rest =>
    if c = '\n' then
      [] :: split_lines rest
    else
      match split_lines rest with
      | [] => [[c]]
      | l :: ls => (c :: l) :: ls

/-- Python substring test `needle in hay` on character lists. -/
def list_contains : List Char → List Char → Bool
  | [], needle => needle.isEmpty
  | c :: t, needle => needle.isPrefixOf (c :: t) || list_contains t needle

/-- Python `line.startswith(hash_char)` for the one-character comment
marker of urllist.txt. -/
def starts_with_hash : List Char → Bool
  | [] => false
  | c :: _ => c = '#'

/-- A stripped line takes part in the urllist.txt loops when
`not line.startswith(hash) and line` holds in the source. -/
def is_candidate (line : List Char) : Bool :=
  !starts_with_hash line && !line.isEmpty

/-- A stripped line fails when it is a candidate and the external
`base_url.url_join(line)` raises; the resolver is the parameter
`resolve`, returning `none` exactly when `url_join` would raise. -/
def line_fails {α : Type} (resolve : List Char → Option α) (line : List Char) : Bool :=
  is_candidate line && (resolve line).isNone

/-- The counter loop of `urllist_txt._is_urllist_txt`: start `is_urllist`
at 5 and decrement once per failing stripped line. Python integers go
negative freely, so the counter is an `Int`. -/
def urllist_counter {α : Type} (resolve : List Char → Option α)
    (lines : List (List Char)) : Int :=
  lines.foldl (fun acc l => if line_fails resolve (py_strip l) then acc - 1 else acc) 5

/-- Embedding of `urllist_txt._is_urllist_txt`: split the body at newlines,
run the counter loop, and return Python `bool(is_urllist)`, which is true
exactly when the integer is nonzero. -/
def is_urllist_txt {α : Type} (resolve : List Char → Option α) (body : String) : Bool :=
  decide (urllist_counter resolve (split_lines body.data) ≠ 0)

/-- Number of stripped non-comment, non-blank lines of the body that fail
to resolve against the base URL. -/
def failing_count {α : Type} (resolve : List Char → Option α) (body : String) : Nat :=
  (split_lines body.data).countP (fun l => line_fails resolve (py_strip l))

/-- Embedding of `urllist_txt._extract_urls_generator`: for each stripped
candidate line, try `base_url.url_join(line)`; on failure `pass`, otherwise
yield the URL. The generator is modelled by the list of its yields in
order. -/
def extract_urls_generator {α : Type} (resolve : List Char → Option α)
    (body : String) : List α :=
  (split_lines body.data).filterMap (fun l =>
    let s := py_strip l
    if is_candidate s then resolve s else none)

/-- Modelled from the spec's words, for comparison with
`extract_urls_generator`: the stripped non-blank lines not starting with
the comment marker that successfully resolve, each mapped to its resolved
URL, in line order. -/
def spec_yielded_urls {α : Type} (resolve : List Char → Option α)
    (body : String) : List α :=
  (((split_lines body.data).map py_strip).filter
      (fun l => is_candidate l && (resolve l).isSome)).filterMap resolve

/-- Severity constants used by the plugins (`severity.LOW` here). -/
inductive Severity
  | low
  | medium
  | high
deriving DecidableEq, Repr

/-- A finding appended to the knowledge base: either a `Vuln` or an `Info`
record. The producer-plugin name and the kb bucket key, constant per call
site, are elided; name, description, source response id, subject URL and
optional HTTP method are kept. -/
inductive Finding
  | vuln (name desc : String) (sev : Severity) (respId : Nat) (url : String)
      (method : Option String)
  | info (name desc : String) (respId : Nat) (url : String) (method : Option String)
deriving DecidableEq, Repr

/-- Recognizer for a Vulnerability finding of severity Low. -/
def Finding.is_low_vuln : Finding → Bool
  | .vuln _ _ .low _ _ _ => true
  | _ => false

/-- Recognizer for an Information finding. -/
def Finding.is_info : Finding → Bool
  | .info _ _ _ _ _ => true
  | _ => false

/-- The Info appended by `urllist_txt.crawl` when the body is classified
as a genuine urllist.txt. -/
def urllist_info (urllist_url : String) (resp_id : Nat) : Finding :=
  Finding.info "urllist.txt file"
    ("A urllist.txt file was found at: \"" ++ urllist_url ++ "\", this file might" ++
      " expose private URLs and requires a manual review. The" ++
      " scanner will add all URLs listed in this files to the" ++
      " analysis queue.")
    resp_id urllist_url none

/-- Embedding of `urllist_txt.crawl` after the run-once guard admitted:
if the response is a 404 nothing happens; otherwise the Info is appended
exactly when `_is_urllist_txt` holds, and, in both cases, the URLs of
`_extract_urls_generator` are handed to the worker pool. The pair is
(appended findings, dispatched URLs). -/
def urllist_crawl {α : Type} (resolve : List Char → Option α) (is404_result : Bool)
    (body urllist_url : String) (resp_id : Nat) : List Finding × List α :=
  if is404_result then ([], [])
  else
    ((if is_urllist_txt resolve body then [urllist_info urllist_url resp_id] else []),
     extract_urls_generator resolve body)

/-- An XML element as seen through the minidom calls the plugin makes:
a tag name and an attribute list; `getAttribute` of a missing attribute is
the empty string, as in minidom. -/
structure XmlElement where
  tagName : String
  attrs : List (String × String)
deriving DecidableEq, Repr

/-- Minidom `element.getAttribute(a)`: first binding of `a`, default empty. -/
def XmlElement.getAttribute (e : XmlElement) (a : String) : String :=
  match e.attrs.find? (fun p => p.1 == a) with
  | some p => p.2
  | none => ""

/-- A parsed XML document, reduced to its element sequence in document
order, which is all `getElementsByTagName` observes. -/
structure XmlDom where
  elements : List XmlElement
deriving DecidableEq, Repr

/-- Minidom `dom.getElementsByTagName(t)`: the elements with tag `t` in
document order. -/
def XmlDom.getElementsByTagName (d : XmlDom) (t : String) : List XmlElement :=
  d.elements.filter (fun e => e.tagName == t)

/-- The two sequential `if` statements of
`_analyze_crossdomain_clientaccesspolicy` that assign `url_list` and
`attribute`: the result is the (tag, attribute) pair when one of the two
file names matches, and `none` when neither assignment ran, in which case
the later `for url in url_list` raises an unbound-name error. -/
def select_tag_attr (file_name : String) : Option (String × String) :=
  let s : Option (String × String) := none
  let s := if file_name == "crossdomain.xml" then some ("allow-access-from", "domain") else s
  if file_name == "clientaccesspolicy.xml" then some ("domain", "uri") else s

/-- The loop body of the element iteration: read the attribute; on the
wildcard append a Low Vuln, otherwise an Info, both with method GET and
the response URL. -/
def classify_policy_element (file_name resp_url : String) (resp_id : Nat)
    (attr : String) (e : XmlElement) : Finding :=
  let v := e.getAttribute attr
  let desc := "The \"" ++ file_name ++ "\" file at \"" ++ resp_url ++
    "\" allows flash/silverlight" ++ " access from any site."
  if v == "*" then
    Finding.vuln "Insecure RIA settings" desc Severity.low resp_id resp_url (some "GET")
  else
    Finding.info "Cross-domain allow ACL" desc resp_id resp_url (some "GET")

/-- The marker scan of the parse-failure branch: Python
`m in response.get_body()` for the three fixed markers. -/
def has_policy_marker (body : String) : Bool :=
  list_contains body.data "allow-access-from".data ||
  list_contains body.data "cross-domain-policy".data ||
  list_contains body.data "cross-domain-access".data

/-- The Info appended on parse failure when a marker is present. -/
def invalid_ria_info (file_name resp_url : String) (resp_id : Nat) : Finding :=
  Finding.info "Invalid RIA settings file"
    ("The \"" ++ file_name ++ "\" file at: \"" ++ resp_url ++ "\" is not a valid XML.")
    resp_id resp_url none

/-- Embedding of `ria_enumerator._analyze_crossdomain_clientaccesspolicy`.
The external `xml.dom.minidom.parseString` is the parameter `parse`,
returning `none` exactly when parsing raises. The overall result is
`none` when the call itself raises (the unbound `url_list` of the success
branch for a foreign file name), and otherwise `some` of the findings
appended, in append order. -/
def analyze_crossdomain_clientaccesspolicy (parse : String → Option XmlDom)
    (file_name body resp_url : String) (resp_id : Nat) : Option (List Finding) :=
  match parse body with
  | none =>
    if has_policy_marker body then
      some [invalid_ria_info file_name resp_url resp_id]
    else
      some []
  | some dom =>
    match select_tag_attr file_name with
    | none => none
    | some (tag, attr) =>
      some ((dom.getElementsByTagName tag).map
        (classify_policy_element file_name resp_url resp_id attr))

/-- The subset of an HTTP response the classifiers read. -/
structure HttpResponse where
  body : String
  id : Nat
  url : String
deriving DecidableEq, Repr

/-- The fixed marker of `_analyze_gears_manifest`. -/
def gears_marker : String := "\"entries\":"

/-- The Info appended for a gears manifest, tagged with the probed URL. -/
def gears_info (url : String) (resp_id : Nat) : Finding :=
  Finding.info "Gears manifest resource"
    ("A gears manifest file was found at: \"" ++ url ++ "\"." ++
      " Each file should be manually reviewed for sensitive" ++
      " information that may get cached on the client.")
    resp_id url none

/-- Embedding of `ria_enumerator._analyze_gears_manifest`: the source
tests the marker with Python membership on the response object, which the
spec reads as a substring test on the response body. -/
def analyze_gears_manifest (url : String) (resp : HttpResponse) : List Finding :=
  if list_contains resp.body.data gears_marker.data then
    [gears_info url resp.id]
  else
    []

/-- State of a `ria_enumerator` instance touched by `set_options`. -/
structure RiaEnumeratorState where
  wordlist : String
  extensions : List String
deriving DecidableEq, Repr

/-- Embedding of `ria_enumerator.set_options`: the external
`os.path.exists` is the parameter `path_exists`. The wordlist is taken
only when its path exists; the extensions are always taken. -/
def set_options (path_exists : String → Bool) (wordlist_opt : String)
    (manifest_extensions_opt : List String) (s : RiaEnumeratorState) :
    RiaEnumeratorState :=
  let s1 := if path_exists wordlist_opt then { s with wordlist := wordlist_opt } else s
  { s1 with extensions := manifest_extensions_opt }

/-- Observable console/store events of the kb menu commands. -/
inductive KbEvent
  | query (cat : String)
  | message (m : String)
  | help_shown (topic : String)
deriving DecidableEq, Repr

/-- The keys of `kbMenu.__getters`. -/
def recognized_types : List String := ["vulns", "info", "shells"]

/-- The per-parameter loop of `kbMenu._cmd_list`: a recognized category
runs its store getter (one query) and draws the table; an unrecognized one
prints one console message and the loop continues. -/
def cmd_list_loop : List String → List KbEvent
  | [] => []
  | p :: ps =>
    (if recognized_types.contains p then [KbEvent.query p]
     else [KbEvent.message ("Type " ++ p ++ " is unknown")]) ++ cmd_list_loop ps

/-- Embedding of `kbMenu._cmd_list`: with at least one parameter, run the
loop; with none, print the usage hint and show the help for `list`. -/
def cmd_list (params : List String) : List KbEvent :=
  if params.length > 0 then
    cmd_list_loop params
  else
    [KbEvent.message "Parameter type is missing, see the help:",
     KbEvent.help_shown "list"]

/-- Count of store-query events for one category name. -/
def count_query_for (cat : String) (evs : List KbEvent) : Nat :=
  evs.countP (fun e => e == KbEvent.query cat)

/-- Count of unknown-type messages for one category name. -/
def count_unknown_msg_for (name : String) (evs : List KbEvent) : Nat :=
  evs.countP (fun e => e == KbEvent.message ("Type " ++ name ++ " is unknown"))

/-- Where the console goes after a command: `back` is
`return self._console.back`; `stay` would be remaining in the session. -/
inductive NavResult
  | back
  | stay
deriving DecidableEq, Repr

/-- The console message of the store-failure branch of
`StoreOnBackConfigMenu._cmd_back`. -/
def store_fail_msg (vuln_name e : String) : String :=
  "Failed to store \"" ++ vuln_name ++ "\" in the knowledge base because of a" ++
    " configuration error at: \"" ++ e ++ "\"."

/-- The console message of the store-success branch. -/
def store_ok_msg (vuln_name : String) : String :=
  "Stored \"" ++ vuln_name ++ "\" in the knowledge base."

/-- Outcome of one `back` action: the console messages in order, where the
console navigates, and whether the finding reached the knowledge base. -/
structure BackOutcome where
  messages : List String
  nav : NavResult
  stored : Bool
deriving DecidableEq, Repr

/-- Embedding of `StoreOnBackConfigMenu._cmd_back`. The external
`_cmd_save` and `store_in_kb` outcomes are the parameters: `Except.error e`
means the call raised with message `e` (a `w3afException` for save, any
exception for store). -/
def cmd_back (save_result : Except String Unit) (store_result : Except String Unit)
    (vuln_name : String) : BackOutcome :=
  match save_result with
  | .error e => { messages := [e], nav := NavResult.back, stored := false }
  | .ok _ =>
    match store_result with
    | .error e =>
      { messages := [store_fail_msg vuln_name e], nav := NavResult.back, stored := false }
    | .ok _ =>
      { messages := [store_ok_msg vuln_name], nav := NavResult.back, stored := true }

end W3af

namespace W3af

/-- The counter loop computes 5 minus the number of failing lines. -/
theorem urllist_counter_eq {α : Type} (resolve : List Char → Option α)
    (lines : List (List Char)) :
    urllist_counter resolve lines =
      5 - ((lines.countP (fun l => line_fails resolve (py_strip l)) : Nat) : Int) := by
  unfold urllist_counter
  suffices h : ∀ init : Int,
      lines.foldl (fun acc l => if line_fails resolve (py_strip l) then acc - 1 else acc)
          init =
        init - ((lines.countP (fun l => line_fails resolve (py_strip l)) : Nat) : Int) by
    simpa using h 5
  induction lines with
  | nil => intro init; simp
  | cons x xs ih =>
      intro init
      by_cases hx : line_fails resolve (py_strip x) = true
      · rw [List.foldl_cons, if_pos hx, ih, List.countP_cons, if_pos hx]
        push_cast
        ring
      · rw [List.foldl_cons, if_neg hx, ih, List.countP_cons, if_neg hx]
        simp

end W3af

namespace W3af

/-- Claim C1 (code bug): the spec says a body with 5 or more failing
non-comment lines is classified as not a genuine list file, equivalently
that the counter must remain strictly greater than zero. The source
instead returns Python `bool(is_urllist)`, i.e. counter nonzero: with 6
failing lines the counter is -1 and the body is classified as genuine,
while with exactly 5 failing lines it is rejected. This theorem evaluates
the embedding at the failing input. -/
theorem is_urllist_txt_six_failing_true :
    failing_count (fun (_ : List Char) => (none : Option Unit)) "a\nb\nc\nd\ne\nf" = 6 ∧
    is_urllist_txt (fun (_ : List Char) => (none : Option Unit)) "a\nb\nc\nd\ne\nf" = true ∧
    failing_count (fun (_ : List Char) => (none : Option Unit)) "a\nb\nc\nd\ne" = 5 ∧
    is_urllist_txt (fun (_ : List Char) => (none : Option Unit)) "a\nb\nc\nd\ne" = false := by
  decide

/-- Claim C2: for every list-file body in which fewer than 5 non-comment,
non-blank lines fail to resolve, `_is_urllist_txt` classifies the body as
a genuine list file, regardless of total line count or of how many lines
resolve successfully. -/
theorem is_urllist_txt_of_failing_lt_five {α : Type} (resolve : List Char → Option α)
    (body : String) (h : failing_count resolve body < 5) :
    is_urllist_txt resolve body = true := by
  unfold is_urllist_txt
  rw [urllist_counter_eq]
  unfold failing_count at h
  simp only [decide_eq_true_eq]
  omega

/-- Witness for C2 at a concrete two-line body whose lines all resolve. -/
theorem is_urllist_txt_of_failing_lt_five_witness :
    failing_count (fun (l : List Char) => some (String.mk l)) "http://x/a\nhttp://x/b" < 5 ∧
    is_urllist_txt (fun (l : List Char) => some (String.mk l)) "http://x/a\nhttp://x/b" = true :=
  ⟨by decide,
   is_urllist_txt_of_failing_lt_five (fun l => some (String.mk l)) "http://x/a\nhttp://x/b"
     (by decide)⟩

/-- One pass of filterMap with stripping equals stripping, filtering the
resolvable candidates, then extracting the resolved values. -/
theorem filterMap_strip_eq {α : Type} (resolve : List Char → Option α)
    (ls : List (List Char)) :
    ls.filterMap (fun l =>
        let s := py_strip l
        if is_candidate s then resolve s else none) =
      ((ls.map py_strip).filter
          (fun l => is_candidate l && (resolve l).isSome)).filterMap resolve := by
  induction ls with
  | nil => rfl
  | cons x xs ih =>
      by_cases hc : is_candidate (py_strip x) = true
      · cases hr : resolve (py_strip x) with
        | none => simp [List.filterMap_cons, List.filter_cons, hc, hr, ih]
        | some a => simp [List.filterMap_cons, List.filter_cons, hc, hr, ih]
      · simp [List.filterMap_cons, List.filter_cons, hc, ih]

/-- Claim C3: `_extract_urls_generator` yields exactly the stripped
non-blank, non-comment lines that successfully resolve, one URL per such
line in line order (the spec-side description `spec_yielded_urls`), and in
`crawl` the dispatched URL stream is this same list whatever
`_is_urllist_txt` decided. -/
theorem extract_urls_eq_spec_yielded {α : Type} (resolve : List Char → Option α)
    (body : String) :
    extract_urls_generator resolve body = spec_yielded_urls resolve body ∧
    ∀ (urllist_url : String) (resp_id : Nat),
      (urllist_crawl resolve false body urllist_url resp_id).2 =
        extract_urls_generator resolve body := by
  constructor
  · unfold extract_urls_generator spec_yielded_urls
    exact filterMap_strip_eq resolve (split_lines body.data)
  · intro urllist_url resp_id
    simp [urllist_crawl]

end W3af

namespace W3af

/-- Claim C4: for a body that parses as XML with file name crossdomain.xml
(elements allow-access-from, attribute domain) or clientaccesspolicy.xml
(elements domain, attribute uri), the classifier appends exactly one
finding per matching element in document order, a Low Vulnerability when
the attribute value is the wildcard and an Information finding otherwise,
with no merging of duplicates. -/
theorem analyze_crossdomain_parsed_spec (parse : String → Option XmlDom)
    (body resp_url : String) (dom : XmlDom) (resp_id : Nat)
    (h : parse body = some dom) :
    analyze_crossdomain_clientaccesspolicy parse "crossdomain.xml" body resp_url resp_id =
      some ((dom.getElementsByTagName "allow-access-from").map
        (classify_policy_element "crossdomain.xml" resp_url resp_id "domain")) ∧
    analyze_crossdomain_clientaccesspolicy parse "clientaccesspolicy.xml" body resp_url
        resp_id =
      some ((dom.getElementsByTagName "domain").map
        (classify_policy_element "clientaccesspolicy.xml" resp_url resp_id "uri")) ∧
    ∀ (file_name attr : String) (e : XmlElement),
      ((classify_policy_element file_name resp_url resp_id attr e).is_low_vuln = true ↔
        e.getAttribute attr = "*") ∧
      ((classify_policy_element file_name resp_url resp_id attr e).is_info = true ↔
        ¬ e.getAttribute attr = "*") := by
  have hcd : select_tag_attr "crossdomain.xml" = some ("allow-access-from", "domain") := by
    decide
  have hcap : select_tag_attr "clientaccesspolicy.xml" = some ("domain", "uri") := by
    decide
  refine ⟨?_, ?_, ?_⟩
  · simp [analyze_crossdomain_clientaccesspolicy, h, hcd]
  · simp [analyze_crossdomain_clientaccesspolicy, h, hcap]
  · intro file_name attr e
    by_cases hv : e.getAttribute attr = "*"
    · constructor
      · simp [classify_policy_element, hv, Finding.is_low_vuln]
      · simp [classify_policy_element, hv, Finding.is_info]
    · constructor
      · simp [classify_policy_element, hv, Finding.is_low_vuln]
      · simp [classify_policy_element, hv, Finding.is_info]

/-- Witness for C4: a crossdomain.xml document with one wildcard rule and
one named rule yields one Low Vuln followed by one Info. -/
theorem analyze_crossdomain_parsed_spec_witness :
    analyze_crossdomain_clientaccesspolicy
        (fun _ => some (⟨[⟨"allow-access-from", [("domain", "*")]⟩,
          ⟨"allow-access-from", [("domain", "http://a.example")]⟩]⟩ : XmlDom))
        "crossdomain.xml" "<policy/>" "http://t/crossdomain.xml" 9 =
      some [Finding.vuln "Insecure RIA settings"
          ("The \"crossdomain.xml\" file at \"http://t/crossdomain.xml\" allows" ++
            " flash/silverlight access from any site.")
          Severity.low 9 "http://t/crossdomain.xml" (some "GET"),
        Finding.info "Cross-domain allow ACL"
          ("The \"crossdomain.xml\" file at \"http://t/crossdomain.xml\" allows" ++
            " flash/silverlight access from any site.")
          9 "http://t/crossdomain.xml" (some "GET")] := by
  rw [(analyze_crossdomain_parsed_spec
    (fun _ => some (⟨[⟨"allow-access-from", [("domain", "*")]⟩,
      ⟨"allow-access-from", [("domain", "http://a.example")]⟩]⟩ : XmlDom))
    "<policy/>" "http://t/crossdomain.xml"
    ⟨[⟨"allow-access-from", [("domain", "*")]⟩,
      ⟨"allow-access-from", [("domain", "http://a.example")]⟩]⟩ 9 rfl).1]
  decide

/-- Claim C5: when the body parses as XML but the file name is neither
crossdomain.xml nor clientaccesspolicy.xml, neither assignment to
`url_list` runs and the element loop raises an unbound-name error (result
`none`) instead of emitting zero findings. -/
theorem analyze_crossdomain_foreign_name_raises (parse : String → Option XmlDom)
    (file_name body resp_url : String) (dom : XmlDom) (resp_id : Nat)
    (h : parse body = some dom)
    (h1 : file_name ≠ "crossdomain.xml") (h2 : file_name ≠ "clientaccesspolicy.xml") :
    analyze_crossdomain_clientaccesspolicy parse file_name body resp_url resp_id =
      none := by
  have hsel : select_tag_attr file_name = none := by
    unfold select_tag_attr
    simp [h1, h2]
  simp [analyze_crossdomain_clientaccesspolicy, h, hsel]

/-- Witness for C5 at a wordlist-derived XML manifest name. -/
theorem analyze_crossdomain_foreign_name_raises_witness :
    analyze_crossdomain_clientaccesspolicy (fun _ => some (⟨[]⟩ : XmlDom))
        "manifest.json" "<xml/>" "http://t/manifest.json" 4 = none :=
  analyze_crossdomain_foreign_name_raises (fun _ => some (⟨[]⟩ : XmlDom))
    "manifest.json" "<xml/>" "http://t/manifest.json" ⟨[]⟩ 4 rfl
    (by decide) (by decide)

/-- Claim C6: on XML parse failure the exception is swallowed; exactly one
Information finding is appended when one of the three fixed markers occurs
in the body, and nothing at all when none occurs. -/
theorem analyze_crossdomain_parse_failure_spec (parse : String → Option XmlDom)
    (file_name body resp_url : String) (resp_id : Nat)
    (h : parse body = none) :
    (has_policy_marker body = true →
      analyze_crossdomain_clientaccesspolicy parse file_name body resp_url resp_id =
        some [invalid_ria_info file_name resp_url resp_id]) ∧
    (has_policy_marker body = false →
      analyze_crossdomain_clientaccesspolicy parse file_name body resp_url resp_id =
        some []) ∧
    analyze_crossdomain_clientaccesspolicy parse file_name body resp_url resp_id ≠
      none := by
  refine ⟨?_, ?_, ?_⟩
  · intro hm
    simp [analyze_crossdomain_clientaccesspolicy, h, hm]
  · intro hm
    simp [analyze_crossdomain_clientaccesspolicy, h, hm]
  · by_cases hm : has_policy_marker body = true
    · simp [analyze_crossdomain_clientaccesspolicy, h, hm]
    · simp [analyze_crossdomain_clientaccesspolicy, h, hm]

/-- Witness for C6: one unparsable body holding a marker, one holding
none. -/
theorem analyze_crossdomain_parse_failure_spec_witness :
    analyze_crossdomain_clientaccesspolicy (fun _ => none) "crossdomain.xml"
        "junk cross-domain-policy junk" "http://t/crossdomain.xml" 2 =
      some [invalid_ria_info "crossdomain.xml" "http://t/crossdomain.xml" 2] ∧
    analyze_crossdomain_clientaccesspolicy (fun _ => none) "crossdomain.xml"
        "hello world" "http://t/crossdomain.xml" 2 = some [] :=
  ⟨(analyze_crossdomain_parse_failure_spec (fun _ => none) "crossdomain.xml"
      "junk cross-domain-policy junk" "http://t/crossdomain.xml" 2 rfl).1 (by decide),
   (analyze_crossdomain_parse_failure_spec (fun _ => none) "crossdomain.xml"
      "hello world" "http://t/crossdomain.xml" 2 rfl).2.1 (by decide)⟩

/-- Claim C7: the manifest classifier appends exactly one Information
finding, tagged with the probed URL, when the body holds the fixed marker,
and none otherwise. -/
theorem analyze_gears_manifest_spec (url : String) (resp : HttpResponse) :
    (list_contains resp.body.data gears_marker.data = true →
      analyze_gears_manifest url resp = [gears_info url resp.id]) ∧
    (list_contains resp.body.data gears_marker.data = false →
      analyze_gears_manifest url resp = []) ∧
    (gears_info url resp.id).is_info = true := by
  refine ⟨?_, ?_, rfl⟩
  · intro hm
    simp [analyze_gears_manifest, hm]
  · intro hm
    simp [analyze_gears_manifest, hm]

/-- Witness for C7: a body holding the marker and one without it. -/
theorem analyze_gears_manifest_spec_witness :
    analyze_gears_manifest "http://t/m" ⟨"x \"entries\": []", 7, "http://t/m"⟩ =
      [gears_info "http://t/m" 7] ∧
    analyze_gears_manifest "http://t/m" ⟨"nothing here", 7, "http://t/m"⟩ = [] :=
  ⟨(analyze_gears_manifest_spec "http://t/m" ⟨"x \"entries\": []", 7, "http://t/m"⟩).1
      (by decide),
   (analyze_gears_manifest_spec "http://t/m" ⟨"nothing here", 7, "http://t/m"⟩).2.1
      (by decide)⟩

end W3af

namespace W3af

/-- Claim C8: `_cmd_back` returns the parent menu handle in every outcome;
on store failure the operator message names the vulnerability and the
cause, the finding is not persisted, and navigation still proceeds; the
finding is persisted exactly when both save and store succeed, so no path
re-enters the editing session. -/
theorem cmd_back_spec (save_result store_result : Except String Unit)
    (vuln_name : String) :
    (cmd_back save_result store_result vuln_name).nav = NavResult.back ∧
    (∀ e : String,
      cmd_back (Except.ok ()) (Except.error e) vuln_name =
        { messages := [store_fail_msg vuln_name e], nav := NavResult.back,
          stored := false }) ∧
    ((cmd_back save_result store_result vuln_name).stored = true ↔
      save_result = Except.ok () ∧ store_result = Except.ok ()) := by
  refine ⟨?_, fun e => rfl, ?_⟩
  · cases save_result with
    | error e => rfl
    | ok u =>
      cases store_result with
      | error e => rfl
      | ok v => rfl
  · cases save_result with
    | error e => simp [cmd_back]
    | ok u =>
      cases u
      cases store_result with
      | error e => simp [cmd_back]
      | ok v => cases v; simp [cmd_back]

/-- Two unknown-type messages coincide only for the same category name. -/
theorem unknown_msg_inj {q p : String}
    (h : "Type " ++ q ++ " is unknown" = "Type " ++ p ++ " is unknown") : q = p := by
  have hd := congrArg String.data h
  simp only [String.data_append] at hd
  have h1 := List.append_cancel_right hd
  have h2 := List.append_cancel_left h1
  cases q
  cases p
  exact congrArg String.mk (by simpa using h2)

/-- An unrecognized category contributes no query event to the loop. -/
theorem count_query_loop_eq_zero (p : String)
    (hp : recognized_types.contains p = false) (params : List String) :
    count_query_for p (cmd_list_loop params) = 0 := by
  induction params with
  | nil => rfl
  | cons q ps ih =>
      by_cases hq : recognized_types.contains q = true
      · have hqp : ¬ (q = p) := by
          intro he
          subst he
          rw [hq] at hp
          cases hp
        simp only [cmd_list_loop, hq, if_true]
        simp [count_query_for, List.countP_cons, hqp] at ih ⊢
        exact ih
      · simp only [cmd_list_loop, hq, if_false]
        simp [count_query_for, List.countP_cons] at ih ⊢
        exact ih

/-- The loop emits one unknown-type message per occurrence of an
unrecognized category name. -/
theorem count_unknown_msg_loop (p : String)
    (hp : recognized_types.contains p = false) (params : List String) :
    count_unknown_msg_for p (cmd_list_loop params) =
      params.countP (fun q => q == p) := by
  induction params with
  | nil => rfl
  | cons q ps ih =>
      by_cases hq : recognized_types.contains q = true
      · have hqp : ¬ (q = p) := by
          intro he
          subst he
          rw [hq] at hp
          cases hp
        simp only [cmd_list_loop, hq, if_true]
        simp [count_unknown_msg_for, List.countP_cons, hqp] at ih ⊢
        exact ih
      · by_cases hqp : q = p
        · subst hqp
          simp only [cmd_list_loop, hq, if_false]
          simp [count_unknown_msg_for, List.countP_cons] at ih ⊢
          exact ih
        · have hmsg : ¬ ("Type " ++ q ++ " is unknown" = "Type " ++ p ++ " is unknown") :=
            fun h => hqp (unknown_msg_inj h)
          simp only [cmd_list_loop, hq, if_false]
          simp [count_unknown_msg_for, List.countP_cons, hqp, hmsg] at ih ⊢
          exact ih

/-- Claim C9: in `_cmd_list`, each unrecognized category name produces
exactly one unknown-type message and no store query, and the loop goes on
with the remaining names; a call with zero names prints the usage hint,
shows the help for list, and performs no store query. -/
theorem cmd_list_spec :
    (∀ (p : String) (ps : List String), recognized_types.contains p = false →
      cmd_list (p :: ps) =
        KbEvent.message ("Type " ++ p ++ " is unknown") :: cmd_list_loop ps) ∧
    (∀ (params : List String) (p : String), recognized_types.contains p = false →
      count_query_for p (cmd_list params) = 0) ∧
    (∀ (params : List String) (p : String), recognized_types.contains p = false →
      params ≠ [] →
      count_unknown_msg_for p (cmd_list params) = params.countP (fun q => q == p)) ∧
    cmd_list [] = [KbEvent.message "Parameter type is missing, see the help:",
      KbEvent.help_shown "list"] ∧
    (∀ c : String, count_query_for c (cmd_list []) = 0) := by
  refine ⟨?_, ?_, ?_, rfl, ?_⟩
  · intro p ps hp
    have h1 : cmd_list (p :: ps) = cmd_list_loop (p :: ps) := by simp [cmd_list]
    rw [h1]
    simp only [cmd_list_loop, hp, if_false]
    rfl
  · intro params p hp
    cases params with
    | nil => simp [cmd_list, count_query_for, List.countP_cons]
    | cons q ps =>
        have h : cmd_list (q :: ps) = cmd_list_loop (q :: ps) := by
          simp [cmd_list]
        rw [h]
        exact count_query_loop_eq_zero p hp (q :: ps)
  · intro params p hp hne
    cases params with
    | nil => cases hne rfl
    | cons q ps =>
        have h : cmd_list (q :: ps) = cmd_list_loop (q :: ps) := by
          simp [cmd_list]
        rw [h]
        exact count_unknown_msg_loop p hp (q :: ps)
  · intro c
    simp [cmd_list, count_query_for, List.countP_cons]

/-- Witness for C9 at the unknown category name bogus. -/
theorem cmd_list_spec_witness :
    recognized_types.contains "bogus" = false ∧
    cmd_list ["bogus"] = [KbEvent.message "Type bogus is unknown"] ∧
    count_query_for "bogus" (cmd_list ["bogus"]) = 0 ∧
    count_unknown_msg_for "bogus" (cmd_list ["bogus"]) = 1 := by
  refine ⟨by decide, ?_, ?_, ?_⟩
  · have h := cmd_list_spec.1 "bogus" [] (by decide)
    simpa [cmd_list_loop] using h
  · exact cmd_list_spec.2.1 ["bogus"] "bogus" (by decide)
  · have h := cmd_list_spec.2.2.1 ["bogus"] "bogus" (by decide) (by decide)
    rw [h]
    decide

/-- Claim C10: `set_options` takes the supplied wordlist only when its
path exists, silently keeping the prior value otherwise, while the
manifest extensions are always overwritten. -/
theorem set_options_spec (path_exists : String → Bool) (wordlist_opt : String)
    (manifest_extensions_opt : List String) (s : RiaEnumeratorState) :
    (path_exists wordlist_opt = true →
      (set_options path_exists wordlist_opt manifest_extensions_opt s).wordlist =
        wordlist_opt) ∧
    (path_exists wordlist_opt = false →
      (set_options path_exists wordlist_opt manifest_extensions_opt s).wordlist =
        s.wordlist) ∧
    (set_options path_exists wordlist_opt manifest_extensions_opt s).extensions =
      manifest_extensions_opt := by
  refine ⟨?_, ?_, ?_⟩
  · intro h
    simp [set_options, h]
  · intro h
    simp [set_options, h]
  · by_cases h : path_exists wordlist_opt = true
    · simp [set_options, h]
    · simp [set_options, h]

/-- Witness for C10 with an existing and a missing wordlist path. -/
theorem set_options_spec_witness :
    (set_options (fun _ => true) "new.db" ["", ".php"]
        ⟨"old.db", [""]⟩).wordlist = "new.db" ∧
    (set_options (fun _ => false) "new.db" ["", ".php"]
        ⟨"old.db", [""]⟩).wordlist = "old.db" ∧
    (set_options (fun _ => false) "new.db" ["", ".php"]
        ⟨"old.db", [""]⟩).extensions = ["", ".php"] :=
  ⟨(set_options_spec (fun _ => true) "new.db" ["", ".php"] ⟨"old.db", [""]⟩).1 rfl,
   (set_options_spec (fun _ => false) "new.db" ["", ".php"] ⟨"old.db", [""]⟩).2.1 rfl,
   (set_options_spec (fun _ => false) "new.db" ["", ".php"] ⟨"old.db", [""]⟩).2.2⟩

end W3af
